import Mathlib

/-!
Shallow embedding of the school-management service core:
the School, Classroom and Student managers
(`src/managers/entities/school/School.manager.js`,
`src/managers/entities/student/Student.manager.js`, and the Classroom
manager), over an explicit document store.  Machine state (the Mongo
collections) is an explicit `DB` value threaded through every operation;
each manager method becomes a function `args → token → DB → DB × Res α`
where the error branches return the store unchanged, mirroring the
source's early returns that happen before any `save()`/`create()` call.
-/

namespace SchoolMgmt

/-- Roles carried by a decoded token (`role` claim): the user model allows
`superadmin` and `school_admin`; any other role falls through the access
checks' final `Access denied.` branch, kept here as `otherRole`. -/
inductive Role where
  | superadmin
  | school_admin
  | otherRole
deriving DecidableEq, Repr

/-- Decoded long token (`__longToken`): `{userId, role, schoolId}`. -/
structure Token where
  userId : Nat
  role : Role
  schoolId : Option Nat := none
deriving DecidableEq, Repr

/-- Ad-hoc error object `{error, code?, activeClassrooms?, activeStudents?}`
as returned by the managers. -/
structure ErrObj where
  error : String
  code : Option Nat := none
  activeClassrooms : Option Nat := none
  activeStudents : Option Nat := none
deriving DecidableEq, Repr

/-- A transfer-history entry (sub-document of a Student). -/
structure TransferRecord where
  fromSchool : Nat
  toSchool : Nat
  fromClassroom : Option Nat := none
  toClassroom : Option Nat := none
  date : Nat := 0
  reason : String := ""
deriving DecidableEq, Repr

/-- School document. -/
structure School where
  id : Nat
  name : String
  address : Option String := none
  phone : Option String := none
  email : Option String := none
  principal : Option String := none
  establishedYear : Option Nat := none
  isActive : Bool := true
  createdBy : Nat := 0
  createdAt : Nat := 0
deriving DecidableEq, Repr

/-- Classroom document. -/
structure Classroom where
  id : Nat
  name : String
  schoolId : Nat
  capacity : Nat
  grade : Option String := none
  sectionName : Option String := none
  resources : List String := []
  academicYear : Option String := none
  isActive : Bool := true
  createdBy : Nat := 0
  createdAt : Nat := 0
deriving DecidableEq, Repr

/-- Student document. -/
structure Student where
  id : Nat
  firstName : String
  lastName : String
  email : Option String := none
  dateOfBirth : Option Nat := none
  gender : Option String := none
  schoolId : Nat
  classroomId : Option Nat := none
  enrollmentDate : Nat := 0
  guardianName : Option String := none
  guardianPhone : Option String := none
  guardianEmail : Option String := none
  address : Option String := none
  isActive : Bool := true
  transferHistory : List TransferRecord := []
  createdBy : Nat := 0
  createdAt : Nat := 0
deriving DecidableEq, Repr

/-- The document store: three collections plus a fresh-id counter and a
clock used to stamp `new Date()` values. -/
structure DB where
  schools : List School := []
  classrooms : List Classroom := []
  students : List Student := []
  nextId : Nat := 1000
  now : Nat := 0
deriving DecidableEq, Repr

/-- Result of a manager method: the success payload, an `{error, code?}`
object, a `{errors: [...]}` validation response, or an uncaught
exception (the JS functions are not total: see
`Classroom._getEffectiveSchoolId`). -/
inductive Res (α : Type) where
  | ok (val : α)
  | err (e : ErrObj)
  | errs (msgs : List String)
  | crash (msg : String)
deriving DecidableEq, Repr

namespace DB

/-- `school.findById` -/
def findSchool (db : DB) (i : Nat) : Option School :=
  db.schools.find? (fun s => s.id == i)

/-- `classroom.findById` -/
def findClassroom (db : DB) (i : Nat) : Option Classroom :=
  db.classrooms.find? (fun c => c.id == i)

/-- `student.findById` -/
def findStudent (db : DB) (i : Nat) : Option Student :=
  db.students.find? (fun s => s.id == i)

/-- `findById` applied to a possibly-undefined id (`findById(undefined)`
resolves to `null`). -/
def findSchoolOpt (db : DB) (i : Option Nat) : Option School :=
  match i with
  | none => none
  | some j => db.findSchool j

/-- `student.countDocuments({classroomId, isActive: true})` -/
def countActiveStudentsInClassroom (db : DB) (cid : Nat) : Nat :=
  (db.students.filter (fun s => s.classroomId == some cid && s.isActive)).length

/-- `student.countDocuments({schoolId, isActive: true})` -/
def countActiveStudentsInSchool (db : DB) (sid : Nat) : Nat :=
  (db.students.filter (fun s => s.schoolId == sid && s.isActive)).length

/-- `classroom.countDocuments({schoolId, isActive: true})` -/
def countActiveClassroomsInSchool (db : DB) (sid : Nat) : Nat :=
  (db.classrooms.filter (fun c => c.schoolId == sid && c.isActive)).length

/-- `school.save()`: in-place update of the document with the same `_id`. -/
def saveSchool (db : DB) (s : School) : DB :=
  { db with schools := db.schools.map (fun x => if x.id = s.id then s else x) }

/-- `classroom.save()` -/
def saveClassroom (db : DB) (c : Classroom) : DB :=
  { db with classrooms := db.classrooms.map (fun x => if x.id = c.id then c else x) }

/-- `student.save()` -/
def saveStudent (db : DB) (s : Student) : DB :=
  { db with students := db.students.map (fun x => if x.id = s.id then s else x) }

/-- `student.create(...)`: appends the document and advances the id
counter. -/
def insertStudent (db : DB) (s : Student) : DB :=
  { db with students := db.students ++ [s], nextId := db.nextId + 1 }

end DB

/-- `{ error: 'Authentication required', code: 401 }` -/
def authRequiredErr : ErrObj := { error := "Authentication required", code := some 401 }

namespace StudentManager

/-- The 403 returned by the student manager when a school admin touches a
foreign school. -/
def accessDeniedStudentsErr : ErrObj :=
  { error := "Access denied. You can only access students in your assigned school.", code := some 403 }

/-- The catch-all 403 for tokens with an unrecognised role. -/
def accessDeniedErr : ErrObj := { error := "Access denied.", code := some 403 }

/-- `Student._checkSchoolAccess(token, schoolId)`: null token is a 401;
superadmin always passes; a school admin passes when `schoolId` is absent
or equals the token school id (string-normalised), else 403; any other
role is a 403. -/
def checkSchoolAccess (token : Option Token) (schoolId : Option Nat) : Option ErrObj :=
  match token with
  | none => some authRequiredErr
  | some t =>
    if t.role = Role.superadmin then none
    else if t.role = Role.school_admin then
      match schoolId with
      | none => none
      | some sid => if t.schoolId = some sid then none else some accessDeniedStudentsErr
    else some accessDeniedErr

/-- `Student._getEffectiveSchoolId(token, requestedSchoolId)`: note the
`if (!token) return requestedSchoolId` guard (absent from the classroom
manager variant). -/
def getEffectiveSchoolId (token : Option Token) (requested : Option Nat) : Option Nat :=
  match token with
  | none => requested
  | some t => if t.role = Role.superadmin then requested else t.schoolId

/-- The `studentData` object handed to `validators.student.createStudent`
(everything destructured from the request except `schoolId` and
`classroomId`). -/
structure StudentData where
  firstName : String := ""
  lastName : String := ""
  email : Option String := none
  dateOfBirth : Option Nat := none
  gender : Option String := none
  guardianName : Option String := none
  guardianPhone : Option String := none
  guardianEmail : Option String := none
  address : Option String := none
deriving DecidableEq, Repr

/-- Request parameters of `createStudent` (absent parameter = `none`). -/
structure CreateStudentArgs where
  schoolId : Option Nat := none
  classroomId : Option Nat := none
  firstName : String := ""
  lastName : String := ""
  email : Option String := none
  dateOfBirth : Option Nat := none
  gender : Option String := none
  guardianName : Option String := none
  guardianPhone : Option String := none
  guardianEmail : Option String := none
  address : Option String := none
deriving DecidableEq, Repr

/-- The validated subset of `createStudent` parameters. -/
def CreateStudentArgs.studentData (a : CreateStudentArgs) : StudentData :=
  { firstName := a.firstName, lastName := a.lastName, email := a.email,
    dateOfBirth := a.dateOfBirth, gender := a.gender,
    guardianName := a.guardianName, guardianPhone := a.guardianPhone,
    guardianEmail := a.guardianEmail, address := a.address }

/-- The fail-fast check at the top of `createStudent`: a school admin who
explicitly supplies a `schoolId` different from the token school id is
rejected before effective-school resolution. -/
def createStudentFailFast (t : Token) (requestedSchoolId : Option Nat) : Bool :=
  if t.role = Role.school_admin then
    match requestedSchoolId with
    | some sid => decide (t.schoolId ≠ some sid)
    | none => false
  else false

/-- The classroom block of `createStudent`: when a `classroomId` is
supplied, the classroom must exist, be active, belong to the resolved
school, and have spare capacity. -/
def enrollClassroomCheck (db : DB) (classroomId : Option Nat) (esid : Nat) : Option ErrObj :=
  match classroomId with
  | none => none
  | some cid =>
    match db.findClassroom cid with
    | none => some { error := "Classroom not found" }
    | some c =>
      if !c.isActive then
        some { error := "Cannot enroll student in an inactive classroom" }
      else if c.schoolId ≠ esid then
        some { error := "Classroom does not belong to the specified school" }
      else if c.capacity ≤ db.countActiveStudentsInClassroom cid then
        some { error := "Classroom is at full capacity" }
      else none

/-- `createStudent`: auth check, fail-fast foreign-school 403 for school
admins, effective-school resolution, access check, superadmin-needs-school
check, validation, school existence/active checks, classroom
existence/active/ownership/capacity checks, duplicate-email check, then
`student.create`.  The `validate` collaborator is the injected
`validators.student.createStudent` (returns `none` when the data is
valid). -/
def createStudent (validate : StudentData → Option (List String))
    (a : CreateStudentArgs) (token : Option Token) (db : DB) : DB × Res Student :=
  match token with
  | none => (db, Res.err authRequiredErr)
  | some t =>
    if createStudentFailFast t a.schoolId then (db, Res.err accessDeniedStudentsErr)
    else
      let effectiveSchoolId := getEffectiveSchoolId (some t) a.schoolId
      match checkSchoolAccess (some t) effectiveSchoolId with
      | some e => (db, Res.err e)
      | none =>
        if t.role = Role.superadmin ∧ effectiveSchoolId = none then
          (db, Res.err { error := "School ID is required for superadmin" })
        else
          match validate a.studentData with
          | some msgs => (db, Res.errs msgs)
          | none =>
            match effectiveSchoolId with
            | none => (db, Res.err { error := "School not found" })
            | some esid =>
              match db.findSchool esid with
              | none => (db, Res.err { error := "School not found" })
              | some school =>
                if !school.isActive then
                  (db, Res.err { error := "Cannot enroll student in an inactive school" })
                else
                  match enrollClassroomCheck db a.classroomId esid with
                  | some e => (db, Res.err e)
                  | none =>
                    let dupEmail : Bool :=
                      match a.email with
                      | some em =>
                        !em.isEmpty && (db.students.find? (fun s => s.email == some em)).isSome
                      | none => false
                    if dupEmail then
                      (db, Res.err { error := "A student with this email already exists" })
                    else
                      let newStudent : Student :=
                        { id := db.nextId
                          firstName := a.firstName
                          lastName := a.lastName
                          email := a.email
                          dateOfBirth := a.dateOfBirth
                          gender := a.gender
                          schoolId := esid
                          classroomId := a.classroomId
                          enrollmentDate := db.now
                          guardianName := a.guardianName
                          guardianPhone := a.guardianPhone
                          guardianEmail := a.guardianEmail
                          address := a.address
                          isActive := true
                          transferHistory := []
                          createdBy := t.userId
                          createdAt := db.now }
                      (db.insertStudent newStudent, Res.ok newStudent)

/-- Request parameters of `updateStudent`.  Outer `none` on doubly
optional fields = the parameter was not supplied (`undefined`); for
`classroomId` and `dateOfBirth`, `some none` = supplied but falsy, which
the source turns into `null`. -/
structure UpdateStudentArgs where
  studentId : Option Nat := none
  firstName : Option String := none
  lastName : Option String := none
  email : Option String := none
  dateOfBirth : Option (Option Nat) := none
  gender : Option String := none
  classroomId : Option (Option Nat) := none
  guardianName : Option String := none
  guardianPhone : Option String := none
  guardianEmail : Option String := none
  address : Option String := none
  isActive : Option Bool := none
deriving DecidableEq, Repr

/-- The classroom-change block of `updateStudent`: only runs when a
truthy `classroomId` differing from the current one is supplied; the
target must exist, be active, belong to the SAME school as the student
(cross-school moves are redirected to `transferStudent`), and have spare
capacity. -/
def updateClassroomCheck (db : DB) (classroomId : Option (Option Nat)) (student : Student) :
    Option ErrObj :=
  match classroomId with
  | some (some cid) =>
    if some cid = student.classroomId then none
    else
      match db.findClassroom cid with
      | none => some { error := "Classroom not found" }
      | some c =>
        if !c.isActive then
          some { error := "Cannot move student to an inactive classroom" }
        else if c.schoolId ≠ student.schoolId then
          some { error := "Use transferStudent to move student to a different school\x27s classroom" }
        else if c.capacity ≤ db.countActiveStudentsInClassroom cid then
          some { error := "Target classroom is at full capacity" }
        else none
  | _ => none

/-- `updateStudent`: auth, id presence, lookup, access check,
duplicate-email check, same-school classroom-change checks, then a
field-by-field partial update and `save`. -/
def updateStudent (a : UpdateStudentArgs) (token : Option Token) (db : DB) :
    DB × Res Student :=
  match token with
  | none => (db, Res.err authRequiredErr)
  | some t =>
    match a.studentId with
    | none => (db, Res.err { error := "Student ID is required" })
    | some sid =>
      match db.findStudent sid with
      | none => (db, Res.err { error := "Student not found" })
      | some student =>
        match checkSchoolAccess (some t) (some student.schoolId) with
        | some e => (db, Res.err e)
        | none =>
          let dupEmail : Bool :=
            match a.email with
            | some em =>
              !em.isEmpty && decide (some em ≠ student.email) &&
                (db.students.find? (fun s => s.id != sid && s.email == some em)).isSome
            | none => false
          if dupEmail then
            (db, Res.err { error := "A student with this email already exists" })
          else
            match updateClassroomCheck db a.classroomId student with
            | some e => (db, Res.err e)
            | none =>
              let student' : Student := { student with
                firstName := a.firstName.getD student.firstName
                lastName := a.lastName.getD student.lastName
                email := match a.email with | some em => some em | none => student.email
                dateOfBirth := a.dateOfBirth.getD student.dateOfBirth
                gender := match a.gender with | some g => some g | none => student.gender
                classroomId := a.classroomId.getD student.classroomId
                guardianName := match a.guardianName with | some v => some v | none => student.guardianName
                guardianPhone := match a.guardianPhone with | some v => some v | none => student.guardianPhone
                guardianEmail := match a.guardianEmail with | some v => some v | none => student.guardianEmail
                address := match a.address with | some v => some v | none => student.address
                isActive := a.isActive.getD student.isActive }
              (db.saveStudent student', Res.ok student')

/-- `deleteStudent` (soft delete / unenroll): clears `classroomId` and
sets `isActive` to false; a second call hits the already-unenrolled
guard. -/
def deleteStudent (studentId : Option Nat) (token : Option Token) (db : DB) :
    DB × Res Student :=
  match token with
  | none => (db, Res.err authRequiredErr)
  | some t =>
    match studentId with
    | none => (db, Res.err { error := "Student ID is required" })
    | some sid =>
      match db.findStudent sid with
      | none => (db, Res.err { error := "Student not found" })
      | some student =>
        match checkSchoolAccess (some t) (some student.schoolId) with
        | some e => (db, Res.err e)
        | none =>
          if !student.isActive then
            (db, Res.err { error := "Student is already unenrolled" })
          else
            let student' : Student := { student with isActive := false, classroomId := none }
            (db.saveStudent student', Res.ok student')

/-- Request parameters of `transferStudent`. -/
structure TransferStudentArgs where
  studentId : Option Nat := none
  toSchoolId : Option Nat := none
  toClassroomId : Option Nat := none
  reason : Option String := none
deriving DecidableEq, Repr

/-- The target-school block of `transferStudent`: when `toSchoolId` is
supplied the school must exist and be active. -/
def transferSchoolCheck (db : DB) (toSchoolId : Option Nat) : Option ErrObj :=
  match toSchoolId with
  | none => none
  | some ts =>
    match db.findSchool ts with
    | none => some { error := "Target school not found" }
    | some s =>
      if !s.isActive then
        some { error := "Cannot transfer student to an inactive school" }
      else none

/-- The target-classroom block of `transferStudent`: when `toClassroomId`
is supplied the classroom must exist, be active, belong to the effective
target school, and have spare capacity. -/
def transferClassroomCheck (db : DB) (toClassroomId : Option Nat) (targetSchoolId : Nat) :
    Option ErrObj :=
  match toClassroomId with
  | none => none
  | some tc =>
    match db.findClassroom tc with
    | none => some { error := "Target classroom not found" }
    | some c =>
      if !c.isActive then
        some { error := "Cannot transfer student to an inactive classroom" }
      else if c.schoolId ≠ targetSchoolId then
        some { error := "Target classroom does not belong to the target school" }
      else if c.capacity ≤ db.countActiveStudentsInClassroom tc then
        some { error := "Target classroom is at full capacity" }
      else none

/-- `transferStudent`: auth, id presence, the at-least-one-target check
(which the source performs BEFORE the student lookup), lookup, active
check, source-school access check, cross-school 403 for non-superadmins,
target school and classroom checks, then the single mutation that
reassigns `schoolId`, always sets `classroomId` to the target or null,
and appends one transfer-history record. -/
def transferStudent (a : TransferStudentArgs) (token : Option Token) (db : DB) :
    DB × Res Student :=
  match token with
  | none => (db, Res.err authRequiredErr)
  | some t =>
    match a.studentId with
    | none => (db, Res.err { error := "Student ID is required" })
    | some sid =>
      if a.toSchoolId = none ∧ a.toClassroomId = none then
        (db, Res.err { error := "At least one of toSchoolId or toClassroomId is required" })
      else
        match db.findStudent sid with
        | none => (db, Res.err { error := "Student not found" })
        | some student =>
          if !student.isActive then
            (db, Res.err { error := "Cannot transfer an inactive student" })
          else
            let fromSchoolId := student.schoolId
            let fromClassroomId := student.classroomId
            let targetSchoolId := a.toSchoolId.getD fromSchoolId
            match checkSchoolAccess (some t) (some fromSchoolId) with
            | some e => (db, Res.err e)
            | none =>
              let isCrossSchool : Bool :=
                match a.toSchoolId with
                | some ts => decide (ts ≠ fromSchoolId)
                | none => false
              if isCrossSchool = true ∧ t.role ≠ Role.superadmin then
                (db, Res.err { error := "Only superadmins can transfer students between schools", code := some 403 })
              else
                match transferSchoolCheck db a.toSchoolId with
                | some e => (db, Res.err e)
                | none =>
                  match transferClassroomCheck db a.toClassroomId targetSchoolId with
                  | some e => (db, Res.err e)
                  | none =>
                    let transferEntry : TransferRecord :=
                      { fromSchool := fromSchoolId
                        toSchool := a.toSchoolId.getD fromSchoolId
                        fromClassroom := fromClassroomId
                        toClassroom := a.toClassroomId
                        date := db.now
                        reason := a.reason.getD "" }
                    let student' : Student := { student with
                      schoolId := targetSchoolId
                      classroomId := a.toClassroomId
                      transferHistory := student.transferHistory ++ [transferEntry] }
                    (db.saveStudent student', Res.ok student')

end StudentManager

namespace SchoolManager

/-- The 403 returned by every school-manager method to non-superadmins. -/
def superadminOnlyErr : ErrObj :=
  { error := "Access denied. Only superadmins can manage schools.", code := some 403 }

/-- `School._checkSuperadminAccess(token)` -/
def checkSuperadminAccess (token : Option Token) : Option ErrObj :=
  match token with
  | none => some authRequiredErr
  | some t => if t.role ≠ Role.superadmin then some superadminOnlyErr else none

/-- Request parameters of `updateSchool`. -/
structure UpdateSchoolArgs where
  schoolId : Option Nat := none
  name : Option String := none
  address : Option String := none
  phone : Option String := none
  email : Option String := none
  principal : Option String := none
  establishedYear : Option Nat := none
  isActive : Option Bool := none
deriving DecidableEq, Repr

/-- `updateSchool`: superadmin gate, id presence, lookup, duplicate-name
check (case-insensitive, among active schools, excluding self), then a
field-by-field partial update and `save`.  Note: unlike `deleteSchool`,
the `isActive` assignment here has no active-children guard. -/
def updateSchool (a : UpdateSchoolArgs) (token : Option Token) (db : DB) :
    DB × Res School :=
  match checkSuperadminAccess token with
  | some e => (db, Res.err e)
  | none =>
    match a.schoolId with
    | none => (db, Res.err { error := "School ID is required" })
    | some sid =>
      match db.findSchool sid with
      | none => (db, Res.err { error := "School not found" })
      | some school =>
        let dupName : Bool :=
          match a.name with
          | some n =>
            !n.isEmpty && decide (n ≠ school.name) &&
              (db.schools.find? (fun s =>
                s.id != sid && s.name.toLower == n.toLower && s.isActive)).isSome
          | none => false
        if dupName then (db, Res.err { error := "A school with this name already exists" })
        else
          let school' : School := { school with
            name := a.name.getD school.name
            address := match a.address with | some v => some v | none => school.address
            phone := match a.phone with | some v => some v | none => school.phone
            email := match a.email with | some v => some v | none => school.email
            principal := match a.principal with | some v => some v | none => school.principal
            establishedYear := match a.establishedYear with | some v => some v | none => school.establishedYear
            isActive := a.isActive.getD school.isActive }
          (db.saveSchool school', Res.ok school')

/-- `deleteSchool` (soft delete): superadmin gate, id presence, lookup,
already-inactive guard, then the cascade guard counting active classrooms
and active students (both counts are returned in the error object);
only when both are zero does it set `isActive = false`. -/
def deleteSchool (schoolId : Option Nat) (token : Option Token) (db : DB) :
    DB × Res School :=
  match checkSuperadminAccess token with
  | some e => (db, Res.err e)
  | none =>
    match schoolId with
    | none => (db, Res.err { error := "School ID is required" })
    | some sid =>
      match db.findSchool sid with
      | none => (db, Res.err { error := "School not found" })
      | some school =>
        if !school.isActive then (db, Res.err { error := "School is already inactive" })
        else
          let activeClassrooms := db.countActiveClassroomsInSchool sid
          let activeStudents := db.countActiveStudentsInSchool sid
          if activeClassrooms > 0 ∨ activeStudents > 0 then
            (db, Res.err
              { error := "Cannot delete school with active classrooms or students. Please deactivate or transfer them first.",
                activeClassrooms := some activeClassrooms,
                activeStudents := some activeStudents })
          else
            let school' : School := { school with isActive := false }
            (db.saveSchool school', Res.ok school')

end SchoolManager

namespace ClassroomManager

/-- The 403 returned by the classroom manager when a school admin touches
a foreign school. -/
def accessDeniedClassroomsErr : ErrObj :=
  { error := "Access denied. You can only access your assigned school.", code := some 403 }

/-- `Classroom._checkSchoolAccess(token, schoolId)` (same shape as the
student manager version, different message). -/
def checkSchoolAccess (token : Option Token) (schoolId : Option Nat) : Option ErrObj :=
  match token with
  | none => some authRequiredErr
  | some t =>
    if t.role = Role.superadmin then none
    else if t.role = Role.school_admin then
      match schoolId with
      | none => none
      | some sid =>
        if t.schoolId = some sid then none else some accessDeniedClassroomsErr
    else some StudentManager.accessDeniedErr

/-- The message of the TypeError thrown when `token.role` is read off an
undefined token. -/
def roleOfUndefinedMsg : String :=
  "TypeError: Cannot read properties of undefined (reading role)"

/-- The body of `Classroom._getEffectiveSchoolId(token, requestedSchoolId)`
on a present token. -/
def getEffectiveSchoolIdTotal (t : Token) (requested : Option Nat) : Option Nat :=
  if t.role = Role.superadmin then requested else t.schoolId

/-- `Classroom._getEffectiveSchoolId(token, requestedSchoolId)`: unlike
the student manager version, there is NO null-token guard, so reading
`token.role` off an undefined token throws. -/
def getEffectiveSchoolId (token : Option Token) (requested : Option Nat) :
    Res (Option Nat) :=
  match token with
  | none => Res.crash roleOfUndefinedMsg
  | some t => Res.ok (getEffectiveSchoolIdTotal t requested)

/-- Case-insensitive substring containment, modelling the
`$regex .. $options: i` name search. -/
def strContainsCI (hay needle : String) : Bool :=
  needle.isEmpty || (hay.toLower.splitOn needle.toLower).length > 1

/-- Descending-by-`createdAt` insertion, modelling `sort({createdAt: -1})`. -/
def insertByCreatedAtDesc (c : Classroom) : List Classroom → List Classroom
  | [] => [c]
  | x :: xs =>
    if c.createdAt ≤ x.createdAt then x :: insertByCreatedAtDesc c xs
    else c :: x :: xs

/-- Sort classrooms newest-first. -/
def sortByCreatedAtDesc (l : List Classroom) : List Classroom :=
  l.foldr insertByCreatedAtDesc []

/-- A classroom annotated with its live `studentCount` and
`availableSeats = capacity - studentCount`. -/
structure ClassroomWithCount where
  classroom : Classroom
  studentCount : Nat
  availableSeats : Int
deriving DecidableEq, Repr

/-- `{page, limit, total, pages}` of a list response. -/
structure Pagination where
  page : Nat
  limit : Nat
  total : Nat
  pages : Nat
deriving DecidableEq, Repr

/-- Success payload of `getClassrooms`. -/
structure ClassroomPage where
  classrooms : List ClassroomWithCount
  pagination : Pagination
deriving DecidableEq, Repr

/-- Request parameters of `getClassrooms` (pagination defaults `page=1`,
`limit=10` applied at destructuring). -/
structure GetClassroomsArgs where
  schoolId : Option Nat := none
  page : Nat := 1
  limit : Nat := 10
  search : Option String := none
  grade : Option String := none
  isActive : Option Bool := none
  academicYear : Option String := none
deriving DecidableEq, Repr

/-- `getClassrooms`: the FIRST statement calls
`_getEffectiveSchoolId(__longToken, schoolId)`, which reads
`__longToken.role` with no null guard — an absent token therefore throws
before any auth check rather than returning a 401.  With a token: access
check, scoped query (school admins are forced onto their own school),
filters, newest-first sort, pagination, and per-item student counts. -/
def getClassrooms (a : GetClassroomsArgs) (token : Option Token) (db : DB) :
    DB × Res ClassroomPage :=
  match token with
  | none => (db, Res.crash roleOfUndefinedMsg)
  | some t =>
    let effectiveSchoolId := getEffectiveSchoolIdTotal t a.schoolId
    match checkSchoolAccess (some t) effectiveSchoolId with
    | some e => (db, Res.err e)
    | none =>
      let matchesQuery : Classroom → Bool := fun c =>
        (if t.role = Role.school_admin then some c.schoolId == t.schoolId
         else match effectiveSchoolId with
              | some e => c.schoolId == e
              | none => true) &&
        (match a.isActive with | some b => c.isActive == b | none => true) &&
        (match a.search with
         | some s => s.isEmpty || strContainsCI c.name s
         | none => true) &&
        (match a.grade with
         | some g => g.isEmpty || c.grade == some g
         | none => true) &&
        (match a.academicYear with
         | some y => y.isEmpty || c.academicYear == some y
         | none => true)
      let pageNum := max 1 a.page
      let limitNum := min 100 (max 1 a.limit)
      let skip := (pageNum - 1) * limitNum
      let filtered := db.classrooms.filter matchesQuery
      let items := ((sortByCreatedAtDesc filtered).drop skip).take limitNum
      let total := filtered.length
      let annotated := items.map (fun c =>
        let sc := db.countActiveStudentsInClassroom c.id
        { classroom := c, studentCount := sc,
          availableSeats := (c.capacity : Int) - (sc : Int) : ClassroomWithCount })
      (db, Res.ok
        { classrooms := annotated
          pagination :=
            { page := pageNum, limit := limitNum, total := total,
              pages := (total + limitNum - 1) / limitNum } })

/-- `deleteClassroom` (soft delete): auth, id presence, lookup, access
check, already-inactive guard, then the cascade guard counting active
students (returned in the error object); only at zero does it set
`isActive = false`. -/
def deleteClassroom (classroomId : Option Nat) (token : Option Token) (db : DB) :
    DB × Res Classroom :=
  match token with
  | none => (db, Res.err authRequiredErr)
  | some t =>
    match classroomId with
    | none => (db, Res.err { error := "Classroom ID is required" })
    | some cid =>
      match db.findClassroom cid with
      | none => (db, Res.err { error := "Classroom not found" })
      | some classroom =>
        match checkSchoolAccess (some t) (some classroom.schoolId) with
        | some e => (db, Res.err e)
        | none =>
          if !classroom.isActive then
            (db, Res.err { error := "Classroom is already inactive" })
          else
            let activeStudents := db.countActiveStudentsInClassroom cid
            if activeStudents > 0 then
              (db, Res.err
                { error := "Cannot delete classroom with active students. Please transfer or remove students first.",
                  activeStudents := some activeStudents })
            else
              let classroom' : Classroom := { classroom with isActive := false }
              (db.saveClassroom classroom', Res.ok classroom')

end ClassroomManager

/-! ### The tenancy invariant relating students to their classrooms -/

/-- One student respects the tenancy invariant: an assigned classroom
exists and belongs to the same school as the student. -/
def studentClassroomOk (db : DB) (s : Student) : Bool :=
  match s.classroomId with
  | none => true
  | some cid =>
    match db.findClassroom cid with
    | none => false
    | some c => c.schoolId == s.schoolId

/-- `classroomId != null` implies the referenced classroom has the same
`schoolId` as the student, for every student in the store. -/
def studentClassroomInvariant (db : DB) : Bool :=
  db.students.all (studentClassroomOk db)

/-! ### Concrete fixtures used by witnesses and counterexamples -/

/-- A superadmin token. -/
def supTok : Token := { userId := 1, role := .superadmin }

/-- A school-admin token scoped to school 1. -/
def admTok : Token := { userId := 2, role := .school_admin, schoolId := some 1 }

/-- School 1, active, owning classroom 3 and student 10. -/
def schoolX : School := { id := 1, name := "Lincoln HS", createdBy := 1 }

/-- School 2, active, owning classroom 4. -/
def schoolY : School := { id := 2, name := "Jefferson HS", createdBy := 1 }

/-- School 5, active, with no classrooms and no students. -/
def schoolZ : School := { id := 5, name := "Closed Annex", createdBy := 1 }

/-- Classroom 3 in school 1, capacity 1. -/
def room1 : Classroom := { id := 3, name := "Room 1", schoolId := 1, capacity := 1, createdBy := 1 }

/-- Classroom 4 in school 2, capacity 30, no students. -/
def roomY : Classroom := { id := 4, name := "Room Y", schoolId := 2, capacity := 30, createdBy := 1 }

/-- Student 10, active in school 1, not assigned to a classroom. -/
def studentA : Student := { id := 10, firstName := "Ada", lastName := "Lovelace", schoolId := 1 }

/-- Student 11, active in school 1, seated in classroom 3 (filling it). -/
def studentB : Student :=
  { id := 11, firstName := "Brian", lastName := "Kernighan", schoolId := 1, classroomId := some 3 }

/-- Store with two populated schools, one empty school, two classrooms
and one unseated student. -/
def baseDB : DB :=
  { schools := [schoolX, schoolY, schoolZ], classrooms := [room1, roomY],
    students := [studentA], nextId := 100, now := 5 }

/-- `baseDB` with classroom 3 at full capacity (student 11 seated). -/
def fullDB : DB := { baseDB with students := [studentA, studentB] }

/-- Transfer request moving student 10 to school 2. -/
def xferArgs : StudentManager.TransferStudentArgs :=
  { studentId := some 10, toSchoolId := some 2 }

/-- The transfer-history record such a transfer appends. -/
def xferRec : TransferRecord := { fromSchool := 1, toSchool := 2, date := 5 }

/-- Student 10 after that transfer: moved to school 2, classroom cleared,
one history record. -/
def studentAAfterXfer : Student :=
  { studentA with schoolId := 2, classroomId := none, transferHistory := [xferRec] }

/-- Enrollment request for a new student in school 1, classroom 3. -/
def enrollArgs : StudentManager.CreateStudentArgs :=
  { schoolId := some 1, classroomId := some 3, firstName := "Bob", lastName := "Builder" }

/-- The student that enrollment creates in `baseDB`. -/
def enrolledStudent : Student :=
  { id := 100, firstName := "Bob", lastName := "Builder", schoolId := 1,
    classroomId := some 3, enrollmentDate := 5, createdBy := 1, createdAt := 5 }

/-- `baseDB` after the witness enrollment. -/
def dbAfterEnroll : DB := baseDB.insertStudent enrolledStudent

/-- School 5 soft-deleted. -/
def schoolZInactive : School := { schoolZ with isActive := false }

/-- `baseDB` after soft-deleting school 5. -/
def dbAfterDeleteSchoolZ : DB := baseDB.saveSchool schoolZInactive

/-- Classroom 4 soft-deleted. -/
def roomYInactive : Classroom := { roomY with isActive := false }

/-- `baseDB` after soft-deleting classroom 4. -/
def dbAfterDeleteRoomY : DB := baseDB.saveClassroom roomYInactive

/-- Student 10 soft-deleted (unenrolled). -/
def studentAInactive : Student := { studentA with isActive := false, classroomId := none }

/-- `baseDB` after soft-deleting student 10. -/
def dbAfterDeleteStudentA : DB := baseDB.saveStudent studentAInactive

/-- Update request deactivating student 11 without touching the
classroom field. -/
def deactArgs : StudentManager.UpdateStudentArgs :=
  { studentId := some 11, isActive := some false }

/-- Student 11 deactivated through `updateStudent`: still seated in
classroom 3. -/
def studentBDeact : Student := { studentB with isActive := false }

/-- `fullDB` after that update. -/
def dbAfterDeact : DB := fullDB.saveStudent studentBDeact

/-- Student 11 after `deleteStudent`: inactive and unseated. -/
def studentBDeleted : Student := { studentB with isActive := false, classroomId := none }

/-- `fullDB` after deleting student 11. -/
def dbAfterDeleteStudentB : DB := fullDB.saveStudent studentBDeleted

/-! ### Helper lemmas about the store -/

/-- Looking a document up after an in-place update by id finds the
updated document. -/
theorem find?_map_ite {α : Type} (idOf : α → Nat) (i : Nat) (x y : α) (l : List α)
    (hfind : l.find? (fun a => idOf a == i) = some x)
    (hy : idOf y = idOf x) :
    (l.map (fun a => if idOf a = idOf y then y else a)).find? (fun a => idOf a == i) =
      some y := by
  have hx : idOf x = i := by simpa using List.find?_some hfind
  induction l with
  | nil => simp at hfind
  | cons a as ih =>
    by_cases ha : idOf a = i
    · rw [List.find?_cons_of_pos _ (by simpa using ha)] at hfind
      obtain rfl : a = x := by simpa using hfind
      simp only [List.map_cons, if_pos hy.symm]
      exact List.find?_cons_of_pos _ (by simpa using hy.trans hx)
    · rw [List.find?_cons_of_neg _ (by simpa using ha)] at hfind
      have hne : ¬ idOf a = idOf y := by rw [hy, hx]; exact ha
      simp only [List.map_cons, if_neg hne]
      rw [List.find?_cons_of_neg _ (by simpa using ha)]
      exact ih hfind

/-- `findSchool` after `saveSchool` of a same-id document. -/
theorem findSchool_saveSchool (db : DB) (i : Nat) (s s' : School)
    (h : db.findSchool i = some s) (hid : s'.id = s.id) :
    (db.saveSchool s').findSchool i = some s' :=
  find?_map_ite School.id i s s' db.schools h hid

/-- `findClassroom` after `saveClassroom` of a same-id document. -/
theorem findClassroom_saveClassroom (db : DB) (i : Nat) (c c' : Classroom)
    (h : db.findClassroom i = some c) (hid : c'.id = c.id) :
    (db.saveClassroom c').findClassroom i = some c' :=
  find?_map_ite Classroom.id i c c' db.classrooms h hid

/-- `findStudent` after `saveStudent` of a same-id document. -/
theorem findStudent_saveStudent (db : DB) (i : Nat) (s s' : Student)
    (h : db.findStudent i = some s) (hid : s'.id = s.id) :
    (db.saveStudent s').findStudent i = some s' :=
  find?_map_ite Student.id i s s' db.students h hid

/-! ### Success-branch inversion lemmas -/

/-- Everything that must have held for `deleteSchool` to succeed. -/
theorem deleteSchool_ok_inversion (schoolId : Option Nat) (token : Option Token)
    (db db' : DB) (s' : School)
    (h : SchoolManager.deleteSchool schoolId token db = (db', Res.ok s')) :
    ∃ sid school,
      SchoolManager.checkSuperadminAccess token = none ∧
      schoolId = some sid ∧
      db.findSchool sid = some school ∧
      school.isActive = true ∧
      db.countActiveClassroomsInSchool sid = 0 ∧
      db.countActiveStudentsInSchool sid = 0 ∧
      s' = { school with isActive := false } ∧
      db' = db.saveSchool s' := by
  simp only [SchoolManager.deleteSchool] at h
  split at h
  · simp at h
  next hauth =>
    split at h
    · simp at h
    next sid =>
      split at h
      · simp at h
      next school hfind =>
        split at h
        · simp at h
        next hact =>
          split at h
          · simp at h
          next hcnt =>
            simp only [Prod.mk.injEq, Res.ok.injEq] at h
            obtain ⟨hdb, hs⟩ := h
            refine ⟨sid, school, hauth, rfl, hfind, ?_, ?_, ?_, hs.symm, ?_⟩
            · simpa using hact
            · omega
            · omega
            · rw [← hdb, ← hs]

/-- Everything that must have held for `deleteClassroom` to succeed. -/
theorem deleteClassroom_ok_inversion (classroomId : Option Nat) (token : Option Token)
    (db db' : DB) (c' : Classroom)
    (h : ClassroomManager.deleteClassroom classroomId token db = (db', Res.ok c')) :
    ∃ t cid classroom,
      token = some t ∧
      classroomId = some cid ∧
      db.findClassroom cid = some classroom ∧
      ClassroomManager.checkSchoolAccess (some t) (some classroom.schoolId) = none ∧
      classroom.isActive = true ∧
      db.countActiveStudentsInClassroom cid = 0 ∧
      c' = { classroom with isActive := false } ∧
      db' = db.saveClassroom c' := by
  simp only [ClassroomManager.deleteClassroom] at h
  split at h
  · simp at h
  next t =>
    split at h
    · simp at h
    next cid =>
      split at h
      · simp at h
      next classroom hfind =>
        split at h
        · simp at h
        next hacc =>
          split at h
          · simp at h
          next hact =>
            split at h
            · simp at h
            next hcnt =>
              simp only [Prod.mk.injEq, Res.ok.injEq] at h
              obtain ⟨hdb, hc⟩ := h
              exact ⟨t, cid, classroom, rfl, rfl, hfind, hacc, by simpa using hact,
                by omega, hc.symm, by rw [← hdb, ← hc]⟩

/-- Everything that must have held for `deleteStudent` to succeed. -/
theorem deleteStudent_ok_inversion (studentId : Option Nat) (token : Option Token)
    (db db' : DB) (s' : Student)
    (h : StudentManager.deleteStudent studentId token db = (db', Res.ok s')) :
    ∃ t sid student,
      token = some t ∧
      studentId = some sid ∧
      db.findStudent sid = some student ∧
      StudentManager.checkSchoolAccess (some t) (some student.schoolId) = none ∧
      student.isActive = true ∧
      s' = { student with isActive := false, classroomId := none } ∧
      db' = db.saveStudent s' := by
  simp only [StudentManager.deleteStudent] at h
  split at h
  · simp at h
  next t =>
    split at h
    · simp at h
    next sid =>
      split at h
      · simp at h
      next student hfind =>
        split at h
        · simp at h
        next hacc =>
          split at h
          · simp at h
          next hact =>
            simp only [Prod.mk.injEq, Res.ok.injEq] at h
            obtain ⟨hdb, hs⟩ := h
            exact ⟨t, sid, student, rfl, rfl, hfind, hacc, by simpa using hact,
              hs.symm, by rw [← hdb, ← hs]⟩

/-- What a passed `enrollClassroomCheck` guarantees about a supplied
classroom id. -/
theorem enrollClassroomCheck_none (db : DB) (classroomId : Option Nat) (esid : Nat)
    (h : StudentManager.enrollClassroomCheck db classroomId esid = none) :
    ∀ cid, classroomId = some cid →
      ∃ c, db.findClassroom cid = some c ∧ c.isActive = true ∧ c.schoolId = esid ∧
           db.countActiveStudentsInClassroom cid < c.capacity := by
  intro cid hcid
  subst hcid
  simp only [StudentManager.enrollClassroomCheck] at h
  split at h
  · simp at h
  next c hfc =>
    split at h
    · simp at h
    next hact =>
      split at h
      · simp at h
      next hsch =>
        split at h
        · simp at h
        next hcap =>
          exact ⟨c, hfc, by simpa using hact, by simpa using hsch, by omega⟩

/-- What a passed `updateClassroomCheck` guarantees about a supplied,
actually-changing classroom id. -/
theorem updateClassroomCheck_none (db : DB) (classroomId : Option (Option Nat))
    (student : Student)
    (h : StudentManager.updateClassroomCheck db classroomId student = none) :
    ∀ cid, classroomId = some (some cid) → some cid ≠ student.classroomId →
      ∃ c, db.findClassroom cid = some c ∧ c.isActive = true ∧
           c.schoolId = student.schoolId ∧
           db.countActiveStudentsInClassroom cid < c.capacity := by
  intro cid hcid hne
  subst hcid
  simp only [StudentManager.updateClassroomCheck] at h
  rw [if_neg hne] at h
  split at h
  · simp at h
  next c hfc =>
    split at h
    · simp at h
    next hact =>
      split at h
      · simp at h
      next hsch =>
        split at h
        · simp at h
        next hcap =>
          exact ⟨c, hfc, by simpa using hact, by simpa using hsch, by omega⟩

/-- What a passed `transferClassroomCheck` guarantees about a supplied
target classroom id. -/
theorem transferClassroomCheck_none (db : DB) (toClassroomId : Option Nat)
    (targetSchoolId : Nat)
    (h : StudentManager.transferClassroomCheck db toClassroomId targetSchoolId = none) :
    ∀ tc, toClassroomId = some tc →
      ∃ c, db.findClassroom tc = some c ∧ c.isActive = true ∧
           c.schoolId = targetSchoolId ∧
           db.countActiveStudentsInClassroom tc < c.capacity := by
  intro tc htc
  subst htc
  simp only [StudentManager.transferClassroomCheck] at h
  split at h
  · simp at h
  next c hfc =>
    split at h
    · simp at h
    next hact =>
      split at h
      · simp at h
      next hsch =>
        split at h
        · simp at h
        next hcap =>
          exact ⟨c, hfc, by simpa using hact, by simpa using hsch, by omega⟩

/-- Everything that must have held for `transferStudent` to succeed, and
the exact shape of the updated student. -/
theorem transferStudent_ok_inversion (a : StudentManager.TransferStudentArgs)
    (token : Option Token) (db db' : DB) (st' : Student)
    (h : StudentManager.transferStudent a token db = (db', Res.ok st')) :
    ∃ t sid student,
      token = some t ∧
      a.studentId = some sid ∧
      db.findStudent sid = some student ∧
      student.isActive = true ∧
      StudentManager.checkSchoolAccess (some t) (some student.schoolId) = none ∧
      StudentManager.transferClassroomCheck db a.toClassroomId
        (a.toSchoolId.getD student.schoolId) = none ∧
      st' = { student with
              schoolId := a.toSchoolId.getD student.schoolId
              classroomId := a.toClassroomId
              transferHistory := student.transferHistory ++
                [{ fromSchool := student.schoolId
                   toSchool := a.toSchoolId.getD student.schoolId
                   fromClassroom := student.classroomId
                   toClassroom := a.toClassroomId
                   date := db.now
                   reason := a.reason.getD "" }] } ∧
      db' = db.saveStudent st' := by
  simp only [StudentManager.transferStudent] at h
  split at h
  · simp at h
  next t =>
    split at h
    · simp at h
    next sid hsid =>
      split at h
      · simp at h
      next hboth =>
        split at h
        · simp at h
        next student hfind =>
          split at h
          · simp at h
          next hact =>
            split at h
            · simp at h
            next hacc =>
              split at h
              · simp at h
              next hcross =>
                split at h
                · simp at h
                next hsch =>
                  split at h
                  · simp at h
                  next hcls =>
                    simp only [Prod.mk.injEq, Res.ok.injEq] at h
                    obtain ⟨hdb, hs⟩ := h
                    exact ⟨t, sid, student, rfl, hsid, hfind, by simpa using hact,
                      hacc, hcls, hs.symm, by rw [← hdb, ← hs]⟩

/-- Everything that must have held for `updateStudent` to succeed, and
the exact shape of the updated student. -/
theorem updateStudent_ok_inversion (a : StudentManager.UpdateStudentArgs)
    (token : Option Token) (db db' : DB) (st' : Student)
    (h : StudentManager.updateStudent a token db = (db', Res.ok st')) :
    ∃ t sid student,
      token = some t ∧
      a.studentId = some sid ∧
      db.findStudent sid = some student ∧
      StudentManager.checkSchoolAccess (some t) (some student.schoolId) = none ∧
      StudentManager.updateClassroomCheck db a.classroomId student = none ∧
      st' = { student with
              firstName := a.firstName.getD student.firstName
              lastName := a.lastName.getD student.lastName
              email := match a.email with | some em => some em | none => student.email
              dateOfBirth := a.dateOfBirth.getD student.dateOfBirth
              gender := match a.gender with | some g => some g | none => student.gender
              classroomId := a.classroomId.getD student.classroomId
              guardianName := match a.guardianName with | some v => some v | none => student.guardianName
              guardianPhone := match a.guardianPhone with | some v => some v | none => student.guardianPhone
              guardianEmail := match a.guardianEmail with | some v => some v | none => student.guardianEmail
              address := match a.address with | some v => some v | none => student.address
              isActive := a.isActive.getD student.isActive } ∧
      db' = db.saveStudent st' := by
  simp only [StudentManager.updateStudent] at h
  split at h
  · simp at h
  next t =>
    split at h
    · simp at h
    next sid hsid =>
      split at h
      · simp at h
      next student hfind =>
        split at h
        · simp at h
        next hacc =>
          split at h
          · simp at h
          next hdup =>
            split at h
            · simp at h
            next hcls =>
              simp only [Prod.mk.injEq, Res.ok.injEq] at h
              obtain ⟨hdb, hs⟩ := h
              exact ⟨t, sid, student, rfl, hsid, hfind, hacc, hcls, hs.symm,
                by rw [← hdb, ← hs]⟩

/-- Everything that must have held for `createStudent` to succeed, and
the exact shape of the created student. -/
theorem createStudent_ok_inversion (validate : StudentManager.StudentData → Option (List String))
    (a : StudentManager.CreateStudentArgs) (token : Option Token) (db db' : DB) (st : Student)
    (h : StudentManager.createStudent validate a token db = (db', Res.ok st)) :
    ∃ t esid school,
      token = some t ∧
      StudentManager.createStudentFailFast t a.schoolId = false ∧
      StudentManager.getEffectiveSchoolId (some t) a.schoolId = some esid ∧
      StudentManager.checkSchoolAccess (some t) (some esid) = none ∧
      validate a.studentData = none ∧
      db.findSchool esid = some school ∧
      school.isActive = true ∧
      StudentManager.enrollClassroomCheck db a.classroomId esid = none ∧
      st = { id := db.nextId
             firstName := a.firstName
             lastName := a.lastName
             email := a.email
             dateOfBirth := a.dateOfBirth
             gender := a.gender
             schoolId := esid
             classroomId := a.classroomId
             enrollmentDate := db.now
             guardianName := a.guardianName
             guardianPhone := a.guardianPhone
             guardianEmail := a.guardianEmail
             address := a.address
             isActive := true
             transferHistory := []
             createdBy := t.userId
             createdAt := db.now } ∧
      db' = db.insertStudent st := by
  simp only [StudentManager.createStudent] at h
  split at h
  · simp at h
  next t =>
    split at h
    · simp at h
    next hff =>
      split at h
      · simp at h
      next hacc =>
        split at h
        · simp at h
        next hsup =>
          split at h
          · simp at h
          next hval =>
            split at h
            · simp at h
            next esid heff =>
              split at h
              · simp at h
              next school hfsch =>
                split at h
                · simp at h
                next hact =>
                  split at h
                  · simp at h
                  next hcls =>
                    split at h
                    · simp at h
                    next hdup =>
                      simp only [Prod.mk.injEq, Res.ok.injEq] at h
                      obtain ⟨hdb, hs⟩ := h
                      refine ⟨t, esid, school, rfl, by simpa using hff, heff, ?_,
                        hval, hfsch, by simpa using hact, hcls, hs.symm,
                        by rw [← hdb, ← hs]⟩
                      rw [heff] at hacc
                      exact hacc

/-- The invariant check reads only the classrooms collection, which
student writes never touch. -/
theorem studentClassroomOk_saveStudent (db : DB) (s' s : Student) :
    studentClassroomOk (db.saveStudent s') s = studentClassroomOk db s := rfl

/-- Likewise for inserts. -/
theorem studentClassroomOk_insertStudent (db : DB) (s' s : Student) :
    studentClassroomOk (db.insertStudent s') s = studentClassroomOk db s := rfl

/-- A student with the same classroom and school assignment as one that
passes the check also passes it. -/
theorem studentClassroomOk_congr (db : DB) (x y : Student)
    (hc : x.classroomId = y.classroomId) (hs : x.schoolId = y.schoolId)
    (h : studentClassroomOk db y = true) : studentClassroomOk db x = true := by
  unfold studentClassroomOk at h ⊢
  rw [hc, hs]
  exact h

/-- Saving a student whose assignment passes the check preserves the
invariant. -/
theorem studentClassroomInvariant_saveStudent (db : DB) (s' : Student)
    (hinv : studentClassroomInvariant db = true)
    (hok : studentClassroomOk db s' = true) :
    studentClassroomInvariant (db.saveStudent s') = true := by
  simp only [studentClassroomInvariant, List.all_eq_true] at hinv ⊢
  intro x hx
  rw [studentClassroomOk_saveStudent]
  simp only [DB.saveStudent, List.mem_map] at hx
  obtain ⟨y, hy, hxy⟩ := hx
  by_cases hid : y.id = s'.id
  · rw [if_pos hid] at hxy; subst hxy; exact hok
  · rw [if_neg hid] at hxy; subst hxy; exact hinv y hy

/-- Inserting a student whose assignment passes the check preserves the
invariant. -/
theorem studentClassroomInvariant_insertStudent (db : DB) (s' : Student)
    (hinv : studentClassroomInvariant db = true)
    (hok : studentClassroomOk db s' = true) :
    studentClassroomInvariant (db.insertStudent s') = true := by
  simp only [studentClassroomInvariant, List.all_eq_true] at hinv ⊢
  intro x hx
  rw [studentClassroomOk_insertStudent]
  simp only [DB.insertStudent, List.mem_append, List.mem_singleton] at hx
  rcases hx with hx | rfl
  · exact hinv x hx
  · exact hok

/-! ### Claim theorems -/

/-- C1: the tenancy invariant — every assigned classroom belongs to the
same school as its student — is preserved by every successful
`createStudent`, `updateStudent` and `transferStudent` call: enrollment
checks the classroom against the resolved school, update checks any
truthy changed classroom against the student school (an unchanged or
cleared assignment keeps the prior invariant), and transfer checks the
target classroom against the effective target school while always
resetting `classroomId`. -/
theorem student_classroom_tenancy_preserved (db : DB)
    (hinv : studentClassroomInvariant db = true) :
    (∀ (validate : StudentManager.StudentData → Option (List String))
       (a : StudentManager.CreateStudentArgs) (token : Option Token) (db' : DB)
       (st : Student),
       StudentManager.createStudent validate a token db = (db', Res.ok st) →
       studentClassroomInvariant db' = true) ∧
    (∀ (a : StudentManager.UpdateStudentArgs) (token : Option Token) (db' : DB)
       (st' : Student),
       StudentManager.updateStudent a token db = (db', Res.ok st') →
       studentClassroomInvariant db' = true) ∧
    (∀ (a : StudentManager.TransferStudentArgs) (token : Option Token) (db' : DB)
       (st' : Student),
       StudentManager.transferStudent a token db = (db', Res.ok st') →
       studentClassroomInvariant db' = true) := by
  refine ⟨?_, ?_, ?_⟩
  · intro validate a token db' st h
    obtain ⟨t, esid, school, htok, hff, heff, hacc, hval, hfsch, hsact, hcls, hst, hdb⟩ :=
      createStudent_ok_inversion validate a token db db' st h
    subst hdb
    apply studentClassroomInvariant_insertStudent db st hinv
    rcases hcid : a.classroomId with _ | cid
    · have hc2 : st.classroomId = none := by rw [hst]; exact hcid
      simp [studentClassroomOk, hc2]
    · obtain ⟨c, hfc, hcact, hcs, hcap⟩ :=
        enrollClassroomCheck_none db a.classroomId esid hcls cid hcid
      have hc2 : st.classroomId = some cid := by rw [hst]; exact hcid
      have hs2 : st.schoolId = esid := by rw [hst]
      simp [studentClassroomOk, hc2, hfc, hcs, hs2]
  · intro a token db' st' h
    obtain ⟨t, sid, student, htok, hsid, hfind, hacc, hcls, hst, hdb⟩ :=
      updateStudent_ok_inversion a token db db' st' h
    subst hdb
    apply studentClassroomInvariant_saveStudent db st' hinv
    have hmem : student ∈ db.students := List.mem_of_find?_eq_some hfind
    have hstu_ok : studentClassroomOk db student = true := by
      simp only [studentClassroomInvariant, List.all_eq_true] at hinv
      exact hinv student hmem
    have hs2 : st'.schoolId = student.schoolId := by rw [hst]
    rcases hvar : a.classroomId with _ | ocid
    · have hc2 : st'.classroomId = student.classroomId := by simp [hst, hvar]
      exact studentClassroomOk_congr db st' student hc2 hs2 hstu_ok
    · rcases ocid with _ | cid
      · have hc2 : st'.classroomId = none := by simp [hst, hvar]
        simp [studentClassroomOk, hc2]
      · by_cases hsame : some cid = student.classroomId
        · have hc2 : st'.classroomId = student.classroomId := by
            simp [hst, hvar, hsame]
          exact studentClassroomOk_congr db st' student hc2 hs2 hstu_ok
        · obtain ⟨c, hfc, hcact, hcs, hcap⟩ :=
            updateClassroomCheck_none db a.classroomId student hcls cid hvar hsame
          have hc2 : st'.classroomId = some cid := by simp [hst, hvar]
          simp [studentClassroomOk, hc2, hfc, hcs, hs2]
  · intro a token db' st' h
    obtain ⟨t, sid, student, htok, hsid, hfind, hact, hacc, hcls, hst, hdb⟩ :=
      transferStudent_ok_inversion a token db db' st' h
    subst hdb
    apply studentClassroomInvariant_saveStudent db st' hinv
    rcases hvar : a.toClassroomId with _ | tc
    · have hc2 : st'.classroomId = none := by simp [hst, hvar]
      simp [studentClassroomOk, hc2]
    · obtain ⟨c, hfc, hcact, hcs, hcap⟩ :=
        transferClassroomCheck_none db a.toClassroomId
          (a.toSchoolId.getD student.schoolId) hcls tc hvar
      have hc2 : st'.classroomId = some tc := by simp [hst, hvar]
      have hs2 : st'.schoolId = a.toSchoolId.getD student.schoolId := by rw [hst]
      simp [studentClassroomOk, hc2, hfc, hcs, hs2]

/-- C1 witness: the invariant holds of `baseDB` and `fullDB` and survives
the witness enrollment, the witness deactivating update, and the witness
transfer. -/
theorem student_classroom_tenancy_preserved_witness :
    studentClassroomInvariant baseDB = true ∧
    studentClassroomInvariant dbAfterEnroll = true ∧
    studentClassroomInvariant dbAfterDeact = true ∧
    studentClassroomInvariant (baseDB.saveStudent studentAAfterXfer) = true :=
  ⟨by decide,
   (student_classroom_tenancy_preserved baseDB (by decide)).1 (fun _ => none)
     enrollArgs (some supTok) dbAfterEnroll enrolledStudent (by decide),
   (student_classroom_tenancy_preserved fullDB (by decide)).2.1 deactArgs
     (some supTok) dbAfterDeact studentBDeact (by decide),
   (student_classroom_tenancy_preserved baseDB (by decide)).2.2 xferArgs
     (some supTok) (baseDB.saveStudent studentAAfterXfer) studentAAfterXfer
     (by decide)⟩

/-- C4: the spec requires every exposed operation to return a 401 error
when called with no actor, before anything else runs.  `getClassrooms`
instead begins by calling `_getEffectiveSchoolId`, which reads
`__longToken.role` without the null guard the student-manager version
has, so the unauthenticated call throws a TypeError rather than
returning the 401 error object — evaluating the embedded code at the
failing input exhibits the uncaught exception. -/
theorem getClassrooms_unauthenticated_throws :
    ClassroomManager.getClassrooms {} none baseDB =
      (baseDB, Res.crash ClassroomManager.roleOfUndefinedMsg) := by
  decide

/-- C2 counterexample: the claim says NO service operation sets a school
inactive while it owns an active classroom or student.  But `updateSchool`
applies `isActive := false` with no cascade guard: school 1 owns one
active classroom and one active student in `baseDB`, yet the update
succeeds and deactivates it. -/
theorem updateSchool_deactivates_school_with_active_children :
    SchoolManager.updateSchool { schoolId := some 1, isActive := some false }
        (some supTok) baseDB =
      (baseDB.saveSchool { schoolX with isActive := false },
       Res.ok { schoolX with isActive := false }) ∧
    0 < baseDB.countActiveClassroomsInSchool 1 ∧
    0 < baseDB.countActiveStudentsInSchool 1 ∧
    ({ schoolX with isActive := false } : School).isActive = false := by
  exact ⟨by decide, by decide, by decide, rfl⟩

/-- C2 amended: the cascade guard holds for `deleteSchool` only — a
delete of an active school with an active classroom or student fails
with an error carrying both counts and leaves the store unchanged
(`updateSchool`, by contrast, can deactivate regardless of children). -/
theorem deleteSchool_blocked_by_active_children
    (schoolId : Option Nat) (token : Option Token) (db : DB) (sid : Nat) (school : School)
    (hauth : SchoolManager.checkSuperadminAccess token = none)
    (hsid : schoolId = some sid)
    (hfind : db.findSchool sid = some school)
    (hact : school.isActive = true)
    (hchild : 0 < db.countActiveClassroomsInSchool sid ∨
              0 < db.countActiveStudentsInSchool sid) :
    SchoolManager.deleteSchool schoolId token db =
      (db, Res.err
        { error := "Cannot delete school with active classrooms or students. Please deactivate or transfer them first.",
          activeClassrooms := some (db.countActiveClassroomsInSchool sid),
          activeStudents := some (db.countActiveStudentsInSchool sid) }) := by
  subst hsid
  simp only [SchoolManager.deleteSchool, hauth, hfind, hact]
  simp only [Bool.not_true, Bool.false_eq_true, if_false]
  rw [if_pos (by omega)]

/-- C2 amended, witness: school 1 of `baseDB` owns one active classroom
and one active student; deleting it fails with both counts and no state
change. -/
theorem deleteSchool_blocked_by_active_children_witness :
    SchoolManager.checkSuperadminAccess (some supTok) = none ∧
    baseDB.findSchool 1 = some schoolX ∧
    schoolX.isActive = true ∧
    0 < baseDB.countActiveClassroomsInSchool 1 ∧
    SchoolManager.deleteSchool (some 1) (some supTok) baseDB =
      (baseDB, Res.err
        { error := "Cannot delete school with active classrooms or students. Please deactivate or transfer them first.",
          activeClassrooms := some (baseDB.countActiveClassroomsInSchool 1),
          activeStudents := some (baseDB.countActiveStudentsInSchool 1) }) :=
  ⟨by decide, by decide, by decide, by decide,
    deleteSchool_blocked_by_active_children (some 1) (some supTok) baseDB 1 schoolX
      (by decide) rfl (by decide) (by decide) (Or.inl (by decide))⟩

/-- C9 counterexample: the claim says `transferStudent` checks student
existence before requiring a transfer target, so a call naming a missing
student with no targets should yield the student-not-found error.  The
code performs the at-least-one-target check BEFORE the lookup: student 7
does not exist in `baseDB`, yet the call returns the missing-target
error instead. -/
theorem transfer_target_check_runs_before_lookup_cex :
    StudentManager.transferStudent { studentId := some 7 } (some supTok) baseDB =
      (baseDB,
       Res.err { error := "At least one of toSchoolId or toClassroomId is required" }) ∧
    baseDB.findStudent 7 = none ∧
    ({ error := "At least one of toSchoolId or toClassroomId is required" } : ErrObj) ≠
      { error := "Student not found" } := by
  exact ⟨by decide, by decide, by decide⟩

/-- C9 amended: in `transferStudent` the at-least-one-target check
precedes the student lookup: with neither `toSchoolId` nor
`toClassroomId` the missing-target error is returned even for a
non-existent student, and the student-not-found error is only reachable
when a target is supplied. -/
theorem transfer_target_check_precedes_student_lookup :
    (∀ (a : StudentManager.TransferStudentArgs) (t : Token) (db : DB) (sid : Nat),
      a.studentId = some sid → a.toSchoolId = none → a.toClassroomId = none →
      StudentManager.transferStudent a (some t) db =
        (db, Res.err { error := "At least one of toSchoolId or toClassroomId is required" })) ∧
    (∀ (a : StudentManager.TransferStudentArgs) (t : Token) (db : DB) (sid : Nat),
      a.studentId = some sid → ¬(a.toSchoolId = none ∧ a.toClassroomId = none) →
      db.findStudent sid = none →
      StudentManager.transferStudent a (some t) db =
        (db, Res.err { error := "Student not found" })) := by
  constructor
  · intro a t db sid hsid hts htc
    simp [StudentManager.transferStudent, hsid, hts, htc]
  · intro a t db sid hsid hne hfind
    simp [StudentManager.transferStudent, hsid, hne, hfind]

/-- C9 amended, witness: instantiating both directions on `baseDB`,
where student 7 does not exist. -/
theorem transfer_target_check_precedes_student_lookup_witness :
    ({ studentId := some 7 } : StudentManager.TransferStudentArgs).studentId = some 7 ∧
    baseDB.findStudent 7 = none ∧
    StudentManager.transferStudent { studentId := some 7 } (some supTok) baseDB =
      (baseDB,
       Res.err { error := "At least one of toSchoolId or toClassroomId is required" }) ∧
    StudentManager.transferStudent { studentId := some 7, toSchoolId := some 2 }
        (some supTok) baseDB =
      (baseDB, Res.err { error := "Student not found" }) :=
  ⟨rfl, by decide,
    transfer_target_check_precedes_student_lookup.1
      { studentId := some 7 } supTok baseDB 7 rfl rfl rfl,
    transfer_target_check_precedes_student_lookup.2
      { studentId := some 7, toSchoolId := some 2 } supTok baseDB 7 rfl
      (by simp) (by decide)⟩

/-- C3: for a school-admin actor scoped to school S, effective-school
resolution yields S both when the request omits the school id and when it
names S, and a request naming any other school is rejected with the 403
access-denied error before anything else happens (the fail-fast branch of
`createStudent`). -/
theorem schoolAdmin_effective_school_resolution (t : Token) (S : Nat)
    (hrole : t.role = Role.school_admin) (hS : t.schoolId = some S) :
    StudentManager.getEffectiveSchoolId (some t) none = some S ∧
    StudentManager.getEffectiveSchoolId (some t) (some S) = some S ∧
    (∀ (validate : StudentManager.StudentData → Option (List String))
       (a : StudentManager.CreateStudentArgs) (db : DB) (T : Nat),
       a.schoolId = some T → T ≠ S →
       StudentManager.createStudent validate a (some t) db =
         (db, Res.err StudentManager.accessDeniedStudentsErr)) := by
  refine ⟨?_, ?_, ?_⟩
  · simp [StudentManager.getEffectiveSchoolId, hrole, hS]
  · simp [StudentManager.getEffectiveSchoolId, hrole, hS]
  · intro validate a db T hT hne
    have hff : StudentManager.createStudentFailFast t a.schoolId = true := by
      simp [StudentManager.createStudentFailFast, hrole, hT, hS]
      exact fun h => hne h.symm
    simp [StudentManager.createStudent, hff]

/-- C3 witness: the admin token scoped to school 1, with an enrollment
request naming school 2. -/
theorem schoolAdmin_effective_school_resolution_witness :
    admTok.role = Role.school_admin ∧ admTok.schoolId = some 1 ∧
    StudentManager.getEffectiveSchoolId (some admTok) none = some 1 ∧
    StudentManager.getEffectiveSchoolId (some admTok) (some 1) = some 1 ∧
    StudentManager.createStudent (fun _ => none)
        { schoolId := some 2, firstName := "Eve", lastName := "Smith" }
        (some admTok) baseDB =
      (baseDB, Res.err StudentManager.accessDeniedStudentsErr) := by
  refine ⟨rfl, rfl, ?_, ?_, ?_⟩
  · exact (schoolAdmin_effective_school_resolution admTok 1 rfl rfl).1
  · exact (schoolAdmin_effective_school_resolution admTok 1 rfl rfl).2.1
  · exact (schoolAdmin_effective_school_resolution admTok 1 rfl rfl).2.2
      (fun _ => none) _ baseDB 2 rfl (by decide)

/-- C5: a school-admin transfer naming a `toSchoolId` different from the
student's current school always fails with a 403 — either the
source-school access check (admin of a foreign school) or the
cross-school superadmin requirement (admin of the student's own school)
rejects it, whichever school the target names. -/
theorem schoolAdmin_cross_school_transfer_forbidden
    (a : StudentManager.TransferStudentArgs) (t : Token) (db : DB) (sid ts : Nat)
    (st : Student)
    (hrole : t.role = Role.school_admin)
    (hsid : a.studentId = some sid)
    (hts : a.toSchoolId = some ts)
    (hfind : db.findStudent sid = some st)
    (hactive : st.isActive = true)
    (hne : ts ≠ st.schoolId) :
    ∃ e : ErrObj, StudentManager.transferStudent a (some t) db = (db, Res.err e) ∧
      e.code = some 403 := by
  by_cases hown : t.schoolId = some st.schoolId
  · refine ⟨{ error := "Only superadmins can transfer students between schools",
              code := some 403 }, ?_, rfl⟩
    have hacc : StudentManager.checkSchoolAccess (some t) (some st.schoolId) = none := by
      simp [StudentManager.checkSchoolAccess, hrole, hown]
    simp [StudentManager.transferStudent, hsid, hts, hfind, hactive, hacc, hrole, hne]
  · refine ⟨StudentManager.accessDeniedStudentsErr, ?_, rfl⟩
    have hacc : StudentManager.checkSchoolAccess (some t) (some st.schoolId) =
        some StudentManager.accessDeniedStudentsErr := by
      simp [StudentManager.checkSchoolAccess, hrole, hown]
    simp [StudentManager.transferStudent, hsid, hts, hfind, hactive, hacc]

/-- C5 witness: the admin of school 1 tries to move their own student 10
to school 2. -/
theorem schoolAdmin_cross_school_transfer_forbidden_witness :
    admTok.role = Role.school_admin ∧
    xferArgs.studentId = some 10 ∧
    xferArgs.toSchoolId = some 2 ∧
    baseDB.findStudent 10 = some studentA ∧
    studentA.isActive = true ∧
    (2 : Nat) ≠ studentA.schoolId ∧
    ∃ e : ErrObj,
      StudentManager.transferStudent xferArgs (some admTok) baseDB =
        (baseDB, Res.err e) ∧ e.code = some 403 :=
  ⟨rfl, rfl, rfl, by decide, rfl, by decide,
    schoolAdmin_cross_school_transfer_forbidden xferArgs admTok baseDB 10 2 studentA
      rfl rfl rfl (by decide) rfl (by decide)⟩

/-- C6: every successful transfer moves the student to `toSchoolId` when
given (keeps the school otherwise), sets `classroomId` to `toClassroomId`
or null (never leaves it unchanged), and appends exactly one transfer
record whose from-fields are the pre-transfer school and classroom. -/
theorem transfer_success_updates_student_and_history
    (a : StudentManager.TransferStudentArgs) (token : Option Token) (db db' : DB)
    (sid : Nat) (st st' : Student)
    (hsid : a.studentId = some sid)
    (hfind : db.findStudent sid = some st)
    (h : StudentManager.transferStudent a token db = (db', Res.ok st')) :
    st'.schoolId = a.toSchoolId.getD st.schoolId ∧
    st'.classroomId = a.toClassroomId ∧
    st'.transferHistory = st.transferHistory ++
      [{ fromSchool := st.schoolId
         toSchool := a.toSchoolId.getD st.schoolId
         fromClassroom := st.classroomId
         toClassroom := a.toClassroomId
         date := db.now
         reason := a.reason.getD "" }] := by
  obtain ⟨t, sid2, student, htok, hsid2, hfind2, hact, hacc, hcls, hst, hdb⟩ :=
    transferStudent_ok_inversion a token db db' st' h
  rw [hsid] at hsid2
  have hs2 := Option.some.inj hsid2
  subst hs2
  rw [hfind] at hfind2
  have hstu := Option.some.inj hfind2
  subst hstu
  subst hst
  exact ⟨rfl, rfl, rfl⟩

/-- C6 witness: superadmin moves student 10 (school 1, no classroom) to
school 2. -/
theorem transfer_success_updates_student_and_history_witness :
    xferArgs.studentId = some 10 ∧
    baseDB.findStudent 10 = some studentA ∧
    StudentManager.transferStudent xferArgs (some supTok) baseDB =
      (baseDB.saveStudent studentAAfterXfer, Res.ok studentAAfterXfer) ∧
    (studentAAfterXfer.schoolId = xferArgs.toSchoolId.getD studentA.schoolId ∧
     studentAAfterXfer.classroomId = xferArgs.toClassroomId ∧
     studentAAfterXfer.transferHistory = studentA.transferHistory ++
       [{ fromSchool := studentA.schoolId
          toSchool := xferArgs.toSchoolId.getD studentA.schoolId
          fromClassroom := studentA.classroomId
          toClassroom := xferArgs.toClassroomId
          date := baseDB.now
          reason := xferArgs.reason.getD "" }]) :=
  ⟨rfl, by decide, by decide,
    transfer_success_updates_student_and_history xferArgs (some supTok) baseDB
      (baseDB.saveStudent studentAAfterXfer) 10 studentA studentAAfterXfer
      rfl (by decide) (by decide)⟩

/-- C7: enrollment into a classroom succeeds only while the count of
active students is strictly below capacity (first conjunct, for every
successful call), and once the count has reached capacity the call — all
earlier checks passing — fails with the full-capacity error and leaves
the store untouched (second conjunct). -/
theorem classroom_capacity_enforced_on_enroll :
    (∀ (validate : StudentManager.StudentData → Option (List String))
       (a : StudentManager.CreateStudentArgs) (token : Option Token) (db db' : DB)
       (st : Student) (cid : Nat),
       a.classroomId = some cid →
       StudentManager.createStudent validate a token db = (db', Res.ok st) →
       ∃ c, db.findClassroom cid = some c ∧
            db.countActiveStudentsInClassroom cid < c.capacity) ∧
    (∀ (validate : StudentManager.StudentData → Option (List String))
       (a : StudentManager.CreateStudentArgs) (t : Token) (db : DB)
       (esid cid : Nat) (school : School) (c : Classroom),
       a.classroomId = some cid →
       StudentManager.createStudentFailFast t a.schoolId = false →
       StudentManager.getEffectiveSchoolId (some t) a.schoolId = some esid →
       StudentManager.checkSchoolAccess (some t) (some esid) = none →
       validate a.studentData = none →
       db.findSchool esid = some school →
       school.isActive = true →
       db.findClassroom cid = some c →
       c.isActive = true →
       c.schoolId = esid →
       c.capacity ≤ db.countActiveStudentsInClassroom cid →
       StudentManager.createStudent validate a (some t) db =
         (db, Res.err { error := "Classroom is at full capacity" })) := by
  constructor
  · intro validate a token db db' st cid hcid h
    obtain ⟨t, esid, school, _, _, _, _, _, _, _, hcls, _, _⟩ :=
      createStudent_ok_inversion validate a token db db' st h
    obtain ⟨c, hfc, _, _, hlt⟩ :=
      enrollClassroomCheck_none db a.classroomId esid hcls cid hcid
    exact ⟨c, hfc, hlt⟩
  · intro validate a t db esid cid school c hcid hff heff hacc hval hfsch hsact hfc
      hcact hcs hcap
    have hcheck : StudentManager.enrollClassroomCheck db a.classroomId esid =
        some { error := "Classroom is at full capacity" } := by
      rw [hcid]
      simp only [StudentManager.enrollClassroomCheck]
      rw [hfc]
      simp [hcact, hcs, hcap]
    have hacc2 : StudentManager.checkSchoolAccess (some t)
        (StudentManager.getEffectiveSchoolId (some t) a.schoolId) = none := by
      rw [heff]; exact hacc
    simp [StudentManager.createStudent, hff, hacc2, hacc, heff, hval, hfsch, hsact,
      hcheck]

/-- C7 witness: classroom 3 has capacity 1; enrolling Bob while it is
empty succeeds, and the same request against `fullDB` (classroom 3
already seating one active student) fails with the full-capacity
error. -/
theorem classroom_capacity_enforced_on_enroll_witness :
    StudentManager.createStudent (fun _ => none) enrollArgs (some supTok) baseDB =
      (dbAfterEnroll, Res.ok enrolledStudent) ∧
    (∃ c, baseDB.findClassroom 3 = some c ∧
          baseDB.countActiveStudentsInClassroom 3 < c.capacity) ∧
    room1.capacity ≤ fullDB.countActiveStudentsInClassroom 3 ∧
    StudentManager.createStudent (fun _ => none) enrollArgs (some supTok) fullDB =
      (fullDB, Res.err { error := "Classroom is at full capacity" }) :=
  ⟨by decide,
   classroom_capacity_enforced_on_enroll.1 (fun _ => none) enrollArgs (some supTok)
     baseDB dbAfterEnroll enrolledStudent 3 rfl (by decide),
   by decide,
   classroom_capacity_enforced_on_enroll.2 (fun _ => none) enrollArgs supTok fullDB
     1 3 schoolX room1 rfl (by decide) (by decide) (by decide) rfl (by decide)
     (by decide) (by decide) (by decide) (by decide) (by decide)⟩

/-- C8: for each of School, Classroom and Student, when a soft delete
succeeds, repeating it returns the already-inactive error of that entity
and leaves the store exactly as the first call left it. -/
theorem softDelete_idempotent_second_call_rejected :
    (∀ (schoolId : Option Nat) (token : Option Token) (db db1 : DB) (s1 : School),
       SchoolManager.deleteSchool schoolId token db = (db1, Res.ok s1) →
       SchoolManager.deleteSchool schoolId token db1 =
         (db1, Res.err { error := "School is already inactive" })) ∧
    (∀ (classroomId : Option Nat) (token : Option Token) (db db1 : DB) (c1 : Classroom),
       ClassroomManager.deleteClassroom classroomId token db = (db1, Res.ok c1) →
       ClassroomManager.deleteClassroom classroomId token db1 =
         (db1, Res.err { error := "Classroom is already inactive" })) ∧
    (∀ (studentId : Option Nat) (token : Option Token) (db db1 : DB) (s1 : Student),
       StudentManager.deleteStudent studentId token db = (db1, Res.ok s1) →
       StudentManager.deleteStudent studentId token db1 =
         (db1, Res.err { error := "Student is already unenrolled" })) := by
  refine ⟨?_, ?_, ?_⟩
  · intro schoolId token db db1 s1 h
    obtain ⟨sid, school, hauth, hsid, hfind, hact, _, _, hs1, hdb1⟩ :=
      deleteSchool_ok_inversion schoolId token db db1 s1 h
    subst hsid
    have hfind1 : db1.findSchool sid = some s1 := by
      rw [hdb1]
      exact findSchool_saveSchool db sid school s1 hfind (by rw [hs1])
    subst hs1
    simp [SchoolManager.deleteSchool, hauth, hfind1]
  · intro classroomId token db db1 c1 h
    obtain ⟨t, cid, classroom, htok, hcid, hfind, hacc, hact, _, hc1, hdb1⟩ :=
      deleteClassroom_ok_inversion classroomId token db db1 c1 h
    subst hcid
    subst htok
    have hfind1 : db1.findClassroom cid = some c1 := by
      rw [hdb1]
      exact findClassroom_saveClassroom db cid classroom c1 hfind (by rw [hc1])
    subst hc1
    simp [ClassroomManager.deleteClassroom, hfind1, hacc]
  · intro studentId token db db1 s1 h
    obtain ⟨t, sid, student, htok, hsid, hfind, hacc, hact, hs1, hdb1⟩ :=
      deleteStudent_ok_inversion studentId token db db1 s1 h
    subst hsid
    subst htok
    have hfind1 : db1.findStudent sid = some s1 := by
      rw [hdb1]
      exact findStudent_saveStudent db sid student s1 hfind (by rw [hs1])
    subst hs1
    simp [StudentManager.deleteStudent, hfind1, hacc]

/-- C8 witness: soft-deleting school 5 (childless), classroom 4 (empty)
and student 10, each twice. -/
theorem softDelete_idempotent_second_call_rejected_witness :
    SchoolManager.deleteSchool (some 5) (some supTok) baseDB =
      (dbAfterDeleteSchoolZ, Res.ok schoolZInactive) ∧
    SchoolManager.deleteSchool (some 5) (some supTok) dbAfterDeleteSchoolZ =
      (dbAfterDeleteSchoolZ, Res.err { error := "School is already inactive" }) ∧
    ClassroomManager.deleteClassroom (some 4) (some supTok) baseDB =
      (dbAfterDeleteRoomY, Res.ok roomYInactive) ∧
    ClassroomManager.deleteClassroom (some 4) (some supTok) dbAfterDeleteRoomY =
      (dbAfterDeleteRoomY, Res.err { error := "Classroom is already inactive" }) ∧
    StudentManager.deleteStudent (some 10) (some supTok) baseDB =
      (dbAfterDeleteStudentA, Res.ok studentAInactive) ∧
    StudentManager.deleteStudent (some 10) (some supTok) dbAfterDeleteStudentA =
      (dbAfterDeleteStudentA, Res.err { error := "Student is already unenrolled" }) :=
  ⟨by decide,
   softDelete_idempotent_second_call_rejected.1 (some 5) (some supTok) baseDB
     dbAfterDeleteSchoolZ schoolZInactive (by decide),
   by decide,
   softDelete_idempotent_second_call_rejected.2.1 (some 4) (some supTok) baseDB
     dbAfterDeleteRoomY roomYInactive (by decide),
   by decide,
   softDelete_idempotent_second_call_rejected.2.2 (some 10) (some supTok) baseDB
     dbAfterDeleteStudentA studentAInactive (by decide)⟩

/-- C10: deactivating a student through `updateStudent` without supplying
`classroomId` leaves the classroom assignment in place (the seat is not
freed), while `deleteStudent` always clears it. -/
theorem deactivation_frame_effects :
    (∀ (a : StudentManager.UpdateStudentArgs) (token : Option Token) (db db' : DB)
       (sid : Nat) (st st' : Student),
       a.studentId = some sid →
       db.findStudent sid = some st →
       a.classroomId = none →
       a.isActive = some false →
       StudentManager.updateStudent a token db = (db', Res.ok st') →
       st'.classroomId = st.classroomId ∧ st'.isActive = false) ∧
    (∀ (studentId : Option Nat) (token : Option Token) (db db' : DB) (st' : Student),
       StudentManager.deleteStudent studentId token db = (db', Res.ok st') →
       st'.classroomId = none ∧ st'.isActive = false) := by
  constructor
  · intro a token db db' sid st st' hsid hfind hcls hia h
    obtain ⟨t, sid2, student, htok, hsid2, hfind2, hacc, hclschk, hst, hdb⟩ :=
      updateStudent_ok_inversion a token db db' st' h
    rw [hsid] at hsid2
    have hs2 := Option.some.inj hsid2
    subst hs2
    rw [hfind] at hfind2
    have hstu := Option.some.inj hfind2
    subst hstu
    subst hst
    constructor
    · simp [hcls]
    · simp [hia]
  · intro studentId token db db' st' h
    obtain ⟨t, sid, student, htok, hsid, hfind, hacc, hact, hst, hdb⟩ :=
      deleteStudent_ok_inversion studentId token db db' st' h
    subst hst
    exact ⟨rfl, rfl⟩

/-- C10 witness: student 11 sits in classroom 3 of `fullDB`; the
deactivating update keeps the seat, the delete frees it. -/
theorem deactivation_frame_effects_witness :
    StudentManager.updateStudent deactArgs (some supTok) fullDB =
      (dbAfterDeact, Res.ok studentBDeact) ∧
    (studentBDeact.classroomId = studentB.classroomId ∧
     studentBDeact.isActive = false) ∧
    StudentManager.deleteStudent (some 11) (some supTok) fullDB =
      (dbAfterDeleteStudentB, Res.ok studentBDeleted) ∧
    (studentBDeleted.classroomId = none ∧ studentBDeleted.isActive = false) :=
  ⟨by decide,
   deactivation_frame_effects.1 deactArgs (some supTok) fullDB dbAfterDeact 11
     studentB studentBDeact rfl (by decide) rfl rfl (by decide),
   by decide,
   deactivation_frame_effects.2 (some 11) (some supTok) fullDB dbAfterDeleteStudentB
     studentBDeleted (by decide)⟩

end SchoolMgmt
